import Mathlib

/-!
Verification of the retry / rate-limit / proxy-rotation core of the Vun-Mail
bot, as a shallow embedding of:

* the proxy configuration module (`getNextProxy`, `addProxy`, `removeProxy`,
  `replaceProxies`, `resetProxyIndex`, `getProxyCount`);
* `retryWithBackoff` and `generateEmail` from `bot.js`;
* the admin `waiting_proxy_add` text handler from `bot.js`.

JavaScript-specific behaviour is modelled explicitly: array indexing out of
bounds yields `undefined` (`JsVal.undef`), `proxyList[i]` with a valid index
yields the string, division `i / 0` yields `NaN` (for `i = 0`) or `Infinity`
(for `i > 0`), `Math.pow(2, NaN) = NaN`, `Math.pow(2, Infinity) = Infinity`,
`x * NaN = NaN`, `0 * Infinity = NaN`, and the truthiness test `if (proxy)`
on a string is `proxy ≠ ""`.
-/

/-- A JavaScript value as returned by `getNextProxy`: `null` (empty pool),
`undefined` (out-of-bounds array read), or a proxy address string. -/
inductive JsVal where
  | null : JsVal
  | undef : JsVal
  | str : String → JsVal
deriving DecidableEq, Repr

/-- A non-negative JavaScript number as produced by the backoff-delay
computation `initialDelay * Math.pow(2, Math.floor(i / totalProxies))`:
either `NaN`, `Infinity`, or an actual natural number. -/
inductive JSNum where
  | nan : JSNum
  | inf : JSNum
  | num : Nat → JSNum
deriving DecidableEq, Repr

/-- `Math.floor(i / n)` over non-negative JavaScript numbers:
`0 / 0 = NaN`, `i / 0 = Infinity` for `i > 0`, otherwise natural floor
division. -/
def jsFloorDiv (i n : Nat) : JSNum :=
  if n = 0 then (if i = 0 then JSNum.nan else JSNum.inf)
  else JSNum.num (i / n)

/-- `initialDelay * Math.pow(2, Math.floor(i / totalProxies))` — the backoff
delay computed at bot.js line 167. `Math.pow(2, NaN) = NaN`,
`Math.pow(2, Infinity) = Infinity`, `x * NaN = NaN`, `0 * Infinity = NaN`. -/
def backoffDelay (initialDelay i totalProxies : Nat) : JSNum :=
  match jsFloorDiv i totalProxies with
  | JSNum.nan => JSNum.nan
  | JSNum.inf => if initialDelay = 0 then JSNum.nan else JSNum.inf
  | JSNum.num e => JSNum.num (initialDelay * 2 ^ e)

/-- The module-level state of the proxy configuration module:
`proxyList` and `currentProxyIndex`. -/
structure PoolState where
  proxyList : List String
  currentProxyIndex : Nat
deriving DecidableEq, Repr

/-- `getNextProxy()`: returns `null` if the list is empty, otherwise
`proxyList[currentProxyIndex]` (which is `undefined` when the index is out
of bounds) and advances the index by one modulo the list length. -/
def getNextProxy (s : PoolState) : JsVal × PoolState :=
  if s.proxyList.length = 0 then (JsVal.null, s)
  else
    ((match s.proxyList[s.currentProxyIndex]? with
      | some p => JsVal.str p
      | none => JsVal.undef),
     { s with currentProxyIndex := (s.currentProxyIndex + 1) % s.proxyList.length })

/-- Result of a mutating proxy-pool operation: the returned boolean, the new
state, and whether `saveProxies` was invoked. -/
structure OpResult where
  ret : Bool
  state : PoolState
  persisted : Bool
deriving DecidableEq, Repr

/-- `addProxy(proxy)`: appends when `proxy` is truthy (a non-empty string)
and not already in the list, persisting on success; otherwise returns
`false` without touching the list. -/
def addProxy (proxy : String) (s : PoolState) : OpResult :=
  if proxy ≠ "" ∧ proxy ∉ s.proxyList then
    { ret := true,
      state := { s with proxyList := s.proxyList ++ [proxy] },
      persisted := true }
  else
    { ret := false, state := s, persisted := false }

/-- `removeProxy(proxy)`: `indexOf` followed by `splice(index, 1)` removes
the first occurrence; the rotation index is left untouched. -/
def removeProxy (proxy : String) (s : PoolState) : OpResult :=
  if proxy ∈ s.proxyList then
    { ret := true,
      state := { s with proxyList := s.proxyList.erase proxy },
      persisted := true }
  else
    { ret := false, state := s, persisted := false }

/-- `replaceProxies(newProxyList)`: wholesale assignment of the list and
reset of the rotation index to 0 (no de-duplication is performed). -/
def replaceProxies (newProxyList : List String) (_s : PoolState) : PoolState :=
  { proxyList := newProxyList, currentProxyIndex := 0 }

/-- `resetProxyIndex()`: sets the rotation index to 0. -/
def resetProxyIndex (s : PoolState) : PoolState :=
  { s with currentProxyIndex := 0 }

/-- `getProxyCount()`. -/
def getProxyCount (s : PoolState) : Nat :=
  s.proxyList.length

/-- `n` consecutive `getNextProxy()` calls: the list of returned values and
the final state. -/
def nextProxyCalls : Nat → PoolState → List JsVal × PoolState
  | 0, s => ([], s)
  | n + 1, s =>
    let r := getNextProxy s
    let rest := nextProxyCalls n r.2
    (r.1 :: rest.1, rest.2)

/-- An upstream failure as classified by `retryWithBackoff`:
`error.response?.status === 429` distinguishes an HTTP status from a
transport-level failure with no response. -/
inductive UpstreamError where
  | http : Nat → UpstreamError
  | transport : UpstreamError
deriving DecidableEq, Repr

/-- The test at bot.js line 166: `error.response?.status === 429`. -/
def isRateLimit : UpstreamError → Bool
  | UpstreamError.http 429 => true
  | _ => false

/-- Process state visible to the access layer: the proxy pool plus, for
observation, the sequence of proxies attached to outgoing request configs
(the value of `getNextProxy()` taken inside each operation's attempt). -/
structure BotState where
  pool : PoolState
  routed : List JsVal
deriving DecidableEq, Repr

/-- Observable outcome of one `retryWithBackoff` invocation: the value
returned or error thrown (`none` when the loop falls through without an
attempt), the number of calls to the wrapped operation, the backoff sleeps
performed between attempts in order, the proxies consumed by the catch
handler's own `getNextProxy()` call (used only in its log message), and the
final process state. -/
structure RunResult (α : Type) where
  result : Option (Except UpstreamError α)
  attempts : Nat
  sleeps : List JSNum
  backoffProxies : List JsVal
  final : BotState
deriving Repr

/-- The `for` loop of `retryWithBackoff` (bot.js lines 153-177), with
`fuel = actualMaxRetries - i` iterations remaining and `i` the current
attempt index. The wrapped operation `fn` is given the number of prior
attempts and the current state. On a 429 failure with budget remaining the
loop computes the backoff delay, consumes one proxy for its log message,
sleeps, and continues; any other failure, or an exhausted budget, rethrows. -/
def retryAux {α : Type} (fn : Nat → BotState → Except UpstreamError α × BotState)
    (initialDelay totalProxies actualMaxRetries : Nat) :
    Nat → Nat → BotState → RunResult α
  | 0, _, st => ⟨none, 0, [], [], st⟩
  | fuel + 1, i, st =>
    match fn i st with
    | (Except.ok a, st1) => ⟨some (Except.ok a), 1, [], [], st1⟩
    | (Except.error e, st1) =>
      if isRateLimit e = true ∧ i < actualMaxRetries - 1 then
        let d := backoffDelay initialDelay i totalProxies
        let pr := getNextProxy st1.pool
        let r := retryAux fn initialDelay totalProxies actualMaxRetries fuel (i + 1)
          { st1 with pool := pr.2 }
        ⟨r.result, r.attempts + 1, d :: r.sleeps, pr.1 :: r.backoffProxies, r.final⟩
      else ⟨some (Except.error e), 1, [], [], st1⟩

/-- `retryWithBackoff(fn, maxRetries, initialDelay)` (bot.js lines 148-178):
snapshots `totalProxies = getProxyCount()`, widens the retry budget to
`max(maxRetries, totalProxies)` when any proxy is configured, and runs the
attempt loop. -/
def retryWithBackoff {α : Type} (fn : Nat → BotState → Except UpstreamError α × BotState)
    (maxRetries initialDelay : Nat) (st : BotState) : RunResult α :=
  let totalProxies := getProxyCount st.pool
  let actualMaxRetries := if totalProxies > 0 then max maxRetries totalProxies else maxRetries
  retryAux fn initialDelay totalProxies actualMaxRetries actualMaxRetries 0 st

/-- The attempt body of `generateEmail` (bot.js lines 196-214): takes one
proxy from the rotation, attaches it to the request config (recorded in
`routed`), and performs the upstream POST, whose outcome per attempt is
given by `upstream`. -/
def generateEmailFn {α : Type} (upstream : Nat → Except UpstreamError α) :
    Nat → BotState → Except UpstreamError α × BotState :=
  fun i st =>
    let pr := getNextProxy st.pool
    (upstream i, { pool := pr.2, routed := st.routed ++ [pr.1] })

/-- `generateEmail(name, expiryTime, domain)` = `retryWithBackoff` around
the attempt body, with the default `maxRetries = 3`, `initialDelay = 1000`.
The name/expiry/domain only shape the request payload, which is abstracted
into `upstream`. -/
def generateEmail {α : Type} (upstream : Nat → Except UpstreamError α)
    (st : BotState) : RunResult α :=
  retryWithBackoff (generateEmailFn upstream) 3 1000 st

/-- `pat.isPrefixOf s` over the character lists of strings, spelling out
JavaScript's `String.prototype.startsWith`. -/
def leadsWith : List Char → List Char → Bool
  | [], _ => true
  | _ :: _, [] => false
  | p :: ps, c :: cs => p == c && leadsWith ps cs

/-- The format test of the admin proxy-add text handler (bot.js line 1660):
the input must start with `http://` or `https://`. -/
def isValidProxyFormat (s : String) : Bool :=
  leadsWith "http://".data s.data || leadsWith "https://".data s.data

/-- What the `waiting_proxy_add` text handler replies with. -/
inductive HandlerReply where
  | formatError : HandlerReply
  | added : HandlerReply
  | duplicateError : HandlerReply
deriving DecidableEq, Repr

/-- The `waiting_proxy_add` branch of the admin text handler (bot.js lines
1657-1676), taking the already-trimmed message text `newProxy` (the source
first computes `ctx.message.text.trim()`): it rejects the input before
calling `addProxy` when it does not start with `http://` or `https://`,
otherwise calls `addProxy` and reports success or duplicate. -/
def handleProxyAddInput (newProxy : String) (s : PoolState) : HandlerReply × PoolState :=
  if isValidProxyFormat newProxy = false then (HandlerReply.formatError, s)
  else
    let r := addProxy newProxy s
    if r.ret then (HandlerReply.added, r.state) else (HandlerReply.duplicateError, r.state)

/-- Upstream behaviour for the C1 scenario: 429 on the first attempt, a 200
payload (represented by the value `200`) on every later attempt. -/
def upstream429then200 : Nat → Except UpstreamError Nat :=
  fun i => if i = 0 then Except.error (UpstreamError.http 429) else Except.ok 200

/-- An operation that fails with HTTP 429 on every attempt and does not
touch the state. -/
def alwaysRateLimited : Nat → BotState → Except UpstreamError Nat × BotState :=
  fun _ st => (Except.error (UpstreamError.http 429), st)

/-- Initial state for the C1 scenario: pool `[p1, p2]`, cursor 0, nothing
routed yet. -/
def stC1 : BotState := ⟨⟨["p1", "p2"], 0⟩, []⟩

/-- Initial state for the C2 scenario: no proxies configured. -/
def stC2 : BotState := ⟨⟨[], 0⟩, []⟩

/-- An operation that fails with HTTP 500 on every attempt and does not
touch the state. -/
def alwaysServerError : Nat → BotState → Except UpstreamError Nat × BotState :=
  fun _ st => (Except.error (UpstreamError.http 500), st)

/-- A five-proxy pool with cursor 0 and nothing routed yet. -/
def stFive : BotState := ⟨⟨["q1", "q2", "q3", "q4", "q5"], 0⟩, []⟩

/-- C1 counterexample: in the scenario pool = [p1, p2], one `generateEmail`
call, upstream 429 then 200, the proxies attached to the two attempts'
request configs are `p1` and then `p1` again — the second attempt is not
routed through `p2` (the catch handler consumed `p2` for its log message),
so the claim "proxy p2 [is used] to route attempt 2" is false here. -/
theorem C1_counterexample :
    (generateEmail upstream429then200 stC1).final.routed =
      [JsVal.str "p1", JsVal.str "p1"] ∧
    JsVal.str "p1" ≠ JsVal.str "p2" := by
  exact ⟨rfl, by decide⟩

/-- C1 amended: pool = [p1, p2], one `generateEmail` call, upstream 429 then
200 → exactly 2 attempts; attempt 1 is routed through `p1`; the backoff
handler consumes `p2` from the rotation (only for its log message), so
attempt 2 is routed through `p1` again; exactly one backoff sleep of
`baseDelay × 2^0 = baseDelay = 1000`; the value returned to the caller is
the 200 response payload. -/
theorem C1_amended_run :
    generateEmail upstream429then200 stC1 =
      ⟨some (Except.ok 200), 2, [JSNum.num 1000], [JsVal.str "p2"],
       ⟨⟨["p1", "p2"], 1⟩, [JsVal.str "p1", JsVal.str "p1"]⟩⟩ := by
  rfl

/-- C2: with `maxRetries = 3`, no proxies, and an operation that fails with
HTTP 429 on every attempt, exactly 3 attempts occur and the error
propagates, but the two backoff sleeps are `NaN` and `Infinity` — not
`baseDelay` and `baseDelay × 2` — because the code divides the attempt
index by `totalProxies = 0` with no guard (`2^⌊0/0⌋ = NaN`,
`2^⌊1/0⌋ = Infinity`). -/
theorem C2_zero_proxy_delays :
    retryWithBackoff alwaysRateLimited 3 1000 stC2 =
      ⟨some (Except.error (UpstreamError.http 429)), 3,
       [JSNum.nan, JSNum.inf], [JsVal.null, JsVal.null], stC2⟩ ∧
    [JSNum.nan, JSNum.inf] ≠ [JSNum.num 1000, JSNum.num 2000] := by
  exact ⟨rfl, by decide⟩

/-- C10: after `getNextProxy()` on pool `["a","b"]` (returns `"a"`, cursor
becomes 1) and `removeProxy("a")` (pool becomes `["b"]`, cursor stays 1),
the pool is non-empty yet the next `getNextProxy()` returns `undefined` —
an out-of-bounds read, neither an element of the pool nor `null` — because
`removeProxy` never clamps the rotation index. -/
theorem C10_cursor_out_of_bounds :
    (removeProxy "a" (getNextProxy ⟨["a", "b"], 0⟩).2).state =
      ⟨["b"], 1⟩ ∧
    (getNextProxy (removeProxy "a" (getNextProxy ⟨["a", "b"], 0⟩).2).state).1 =
      JsVal.undef ∧
    JsVal.undef ∉ ["b"].map JsVal.str := by
  refine ⟨rfl, rfl, ?_⟩
  decide

/-- C6 counterexample: `replaceProxies` performs no de-duplication, so
replacing the pool with `["a", "a"]` leaves a duplicate entry in the
endpoint sequence; the no-duplicates invariant is not preserved by
`replaceAll` on an arbitrary new list. -/
theorem C6_counterexample :
    ¬ (replaceProxies ["a", "a"] ⟨[], 0⟩).proxyList.Nodup := by
  decide

/-- C6 amended: starting from a duplicate-free pool, `getNextProxy`,
`addProxy`, `removeProxy` and `resetProxyIndex` all preserve the
no-duplicates invariant; `replaceProxies` does not de-duplicate, so it
preserves the invariant exactly when the new list is itself
duplicate-free. -/
theorem C6_nodup_preservation (s : PoolState) (p : String)
    (newList : List String) (h : s.proxyList.Nodup) :
    (getNextProxy s).2.proxyList.Nodup ∧
    (addProxy p s).state.proxyList.Nodup ∧
    (removeProxy p s).state.proxyList.Nodup ∧
    (resetProxyIndex s).proxyList.Nodup ∧
    (newList.Nodup → (replaceProxies newList s).proxyList.Nodup) := by
  refine ⟨?_, ?_, ?_, h, fun hn => hn⟩
  · unfold getNextProxy
    split
    · exact h
    · exact h
  · unfold addProxy
    split
    · rename_i hcond
      simp only [List.nodup_append, List.nodup_cons, List.not_mem_nil,
        not_false_iff, List.nodup_nil, and_true, true_and]
      refine ⟨h, ?_⟩
      intro a ha hb
      simp only [List.mem_singleton] at hb
      exact hcond.2 (hb ▸ ha)
    · exact h
  · unfold removeProxy
    split
    · exact h.erase p
    · exact h

/-- C6 witness instantiation. -/
theorem C6_nodup_preservation_witness :
    (["x"] : List String).Nodup ∧
    (addProxy "y" ⟨["x"], 0⟩).state.proxyList.Nodup := by
  refine ⟨by decide, ?_⟩
  exact (C6_nodup_preservation ⟨["x"], 0⟩ "y" [] (by decide)).2.1

/-- C7: for every prior pool content and cursor position, `replaceProxies`
installs exactly the new list, resets the cursor to 0, and (when the new
list is non-empty) the immediately following `getNextProxy()` returns the
first element of the new list. -/
theorem C7_replace_resets_cursor (s : PoolState) (newList : List String)
    (h : newList ≠ []) :
    (replaceProxies newList s).proxyList = newList ∧
    (replaceProxies newList s).currentProxyIndex = 0 ∧
    (getNextProxy (replaceProxies newList s)).1 = JsVal.str newList.headI := by
  cases newList with
  | nil => exact absurd rfl h
  | cons x xs =>
    refine ⟨rfl, rfl, ?_⟩
    simp [replaceProxies, getNextProxy]

/-- C7 witness instantiation. -/
theorem C7_replace_resets_cursor_witness :
    (["a", "b", "c"] : List String) ≠ [] ∧
    (getNextProxy (replaceProxies ["a", "b", "c"] ⟨["old1", "old2"], 1⟩)).1 =
      JsVal.str "a" := by
  exact ⟨by decide,
    (C7_replace_resets_cursor ⟨["old1", "old2"], 1⟩ ["a", "b", "c"] (by decide)).2.2⟩

/-- C8: `addProxy` is idempotent. For an endpoint already present, the call
returns `false`, leaves the state unchanged, and performs no persistence
write; the first `addProxy` of an absent endpoint (a non-empty address
string — the code's truthiness test) appends it, returns `true`, and
persists. -/
theorem C8_add_idempotent (s : PoolState) (e : String) :
    (e ∈ s.proxyList →
      addProxy e s = ⟨false, s, false⟩) ∧
    (e ∉ s.proxyList → e ≠ "" →
      addProxy e s =
        ⟨true, { s with proxyList := s.proxyList ++ [e] }, true⟩) := by
  constructor
  · intro hmem
    unfold addProxy
    rw [if_neg]
    intro hc
    exact hc.2 hmem
  · intro habs hne
    unfold addProxy
    rw [if_pos ⟨hne, habs⟩]

/-- C8 witness instantiation: the second add of a present endpoint returns
`false` without persisting; the first add of an absent endpoint returns
`true` and appends. -/
theorem C8_add_idempotent_witness :
    addProxy "http://a:1" ⟨["http://a:1"], 0⟩ = ⟨false, ⟨["http://a:1"], 0⟩, false⟩ ∧
    addProxy "http://a:1" ⟨[], 0⟩ = ⟨true, ⟨["http://a:1"], 0⟩, true⟩ := by
  constructor
  · exact (C8_add_idempotent ⟨["http://a:1"], 0⟩ "http://a:1").1 (by decide)
  · exact (C8_add_idempotent ⟨[], 0⟩ "http://a:1").2 (by decide) (by decide)

/-- C9 counterexample: `addProxy` only tests truthiness and membership, so
the malformed address `"garbage"` (no `http://` / `https://` scheme) is
accepted: the call returns `true` and the malformed string enters the
pool — it is not rejected with `false` as the claim states. -/
theorem C9_counterexample :
    isValidProxyFormat "garbage" = false ∧
    (addProxy "garbage" ⟨[], 0⟩).ret = true ∧
    (addProxy "garbage" ⟨[], 0⟩).state.proxyList = ["garbage"] := by
  refine ⟨by decide, rfl, rfl⟩

/-- C9 amended: `addProxy` itself rejects only the empty (falsy) address by
returning `false`; the format check lives one layer up, in the admin
`waiting_proxy_add` text handler, which rejects any input not starting with
`http://` or `https://` before ever calling `addProxy`, leaving the pool
state unchanged. -/
theorem C9_boundary_rejection (s : PoolState) (input : String)
    (h : isValidProxyFormat input = false) :
    handleProxyAddInput input s = (HandlerReply.formatError, s) ∧
    (addProxy "" s).ret = false := by
  constructor
  · unfold handleProxyAddInput
    rw [if_pos h]
  · unfold addProxy
    rw [if_neg (fun hc => hc.1 rfl)]

/-- C9 witness instantiation. -/
theorem C9_boundary_rejection_witness :
    isValidProxyFormat "garbage" = false ∧
    handleProxyAddInput "garbage" ⟨["http://a:1"], 0⟩ =
      (HandlerReply.formatError, ⟨["http://a:1"], 0⟩) := by
  exact ⟨by decide,
    (C9_boundary_rejection ⟨["http://a:1"], 0⟩ "garbage" (by decide)).1⟩

/-- `getNextProxy` on a pool with a valid cursor returns the element at the
cursor and advances the cursor by one modulo the pool size. -/
theorem getNextProxy_valid (l : List String) (c : Nat) (hc : c < l.length) :
    getNextProxy ⟨l, c⟩ =
      (JsVal.str (l.get ⟨c, hc⟩), ⟨l, (c + 1) % l.length⟩) := by
  unfold getNextProxy
  rw [if_neg (show ¬ (l.length = 0) by omega)]
  simp [List.getElem?_eq_getElem hc]

/-- Splitting a run of `getNextProxy` calls. -/
theorem nextProxyCalls_add (a b : Nat) (s : PoolState) :
    nextProxyCalls (a + b) s =
      ((nextProxyCalls a s).1 ++ (nextProxyCalls b (nextProxyCalls a s).2).1,
       (nextProxyCalls b (nextProxyCalls a s).2).2) := by
  induction a generalizing s with
  | zero => simp [nextProxyCalls]
  | succ n ih =>
    have hstep : n + 1 + b = (n + b) + 1 := by omega
    rw [hstep]
    simp only [nextProxyCalls]
    rw [ih]
    simp

/-- A run of `k` `getNextProxy` calls starting at a valid cursor `c` with
`c + k` within the pool returns the segment of the pool from `c` of length
`k`, in order, and leaves the cursor at `(c + k) % length`. -/
theorem nextProxyCalls_segment (l : List String) :
    ∀ (k c : Nat), c < l.length → c + k ≤ l.length →
    nextProxyCalls k ⟨l, c⟩ =
      (((l.drop c).take k).map JsVal.str, ⟨l, (c + k) % l.length⟩) := by
  intro k
  induction k with
  | zero =>
    intro c hc _
    simp [nextProxyCalls, Nat.mod_eq_of_lt hc]
  | succ k ih =>
    intro c hc hk
    simp only [nextProxyCalls, getNextProxy_valid l c hc]
    by_cases hc1 : c + 1 < l.length
    · rw [Nat.mod_eq_of_lt hc1]
      rw [ih (c + 1) hc1 (by omega)]
      rw [List.drop_eq_getElem_cons hc]
      simp only [List.take_succ_cons, List.map_cons, List.get_eq_getElem]
      rw [show c + 1 + k = c + (k + 1) by omega]
    · have hk0 : k = 0 := by omega
      subst hk0
      simp only [nextProxyCalls]
      rw [List.drop_eq_getElem_cons hc]
      simp only [List.take_succ_cons, List.take_zero, List.map_cons,
        List.map_nil, List.get_eq_getElem]

/-- C5: for every non-empty pool with the cursor at 0, `N = length`
consecutive `getNextProxy()` calls return every endpoint exactly once in
insertion order (the returned sequence is the pool itself) and leave the
cursor back at 0; the `(N+1)`-th call returns the first endpoint again; and
every single call advances the cursor by one modulo the pool size. -/
theorem C5_round_robin (l : List String) (h : l ≠ []) :
    nextProxyCalls l.length ⟨l, 0⟩ = (l.map JsVal.str, ⟨l, 0⟩) ∧
    (nextProxyCalls (l.length + 1) ⟨l, 0⟩).1 =
      l.map JsVal.str ++ [JsVal.str l.headI] ∧
    ∀ c : Nat,
      (getNextProxy ⟨l, c⟩).2.currentProxyIndex = (c + 1) % l.length := by
  have hlen : 0 < l.length := List.length_pos.mpr h
  have hfull : nextProxyCalls l.length ⟨l, 0⟩ = (l.map JsVal.str, ⟨l, 0⟩) := by
    rw [nextProxyCalls_segment l l.length 0 hlen (by omega)]
    simp [Nat.mod_self]
  refine ⟨hfull, ?_, ?_⟩
  · rw [nextProxyCalls_add l.length 1 ⟨l, 0⟩, hfull]
    simp only [nextProxyCalls, getNextProxy_valid l 0 hlen]
    cases l with
    | nil => exact absurd rfl h
    | cons x xs => simp [List.headI]
  · intro c
    unfold getNextProxy
    rw [if_neg (show ¬ (l.length = 0) by omega)]

/-- C5 witness instantiation on the pool `["a", "b", "c"]`. -/
theorem C5_round_robin_witness :
    nextProxyCalls 3 ⟨["a", "b", "c"], 0⟩ =
      ([JsVal.str "a", JsVal.str "b", JsVal.str "c"], ⟨["a", "b", "c"], 0⟩) ∧
    (nextProxyCalls 4 ⟨["a", "b", "c"], 0⟩).1 =
      [JsVal.str "a", JsVal.str "b", JsVal.str "c", JsVal.str "a"] ∧
    (getNextProxy ⟨["a", "b", "c"], 5⟩).2.currentProxyIndex = (5 + 1) % 3 := by
  have h := C5_round_robin ["a", "b", "c"] (by decide)
  exact ⟨h.1, by simpa using h.2.1, by simpa using h.2.2 5⟩

/-- Trace of the retry loop when every attempt fails with HTTP 429: with
`fuel` iterations of budget left at attempt index `i`, exactly `fuel`
attempts happen, one backoff sleep of `backoffDelay initialDelay (i+k)`
separates consecutive attempts, and the final 429 error is rethrown. -/
theorem retryAux_rate_limited_trace {α : Type}
    (fn : Nat → BotState → Except UpstreamError α × BotState)
    (d tp amr : Nat)
    (H : ∀ i st, (fn i st).1 = Except.error (UpstreamError.http 429)) :
    ∀ (fuel i : Nat) (st : BotState), i + fuel = amr →
      (retryAux fn d tp amr fuel i st).attempts = fuel ∧
      (retryAux fn d tp amr fuel i st).sleeps =
        (List.range (fuel - 1)).map (fun k => backoffDelay d (i + k) tp) ∧
      (retryAux fn d tp amr fuel i st).result =
        (if fuel = 0 then none
         else some (Except.error (UpstreamError.http 429))) := by
  intro fuel
  induction fuel with
  | zero =>
    intro i st _
    simp [retryAux]
  | succ fuel ih =>
    intro i st hi
    rcases hfs : fn i st with ⟨r1, st1⟩
    have hr1 : r1 = Except.error (UpstreamError.http 429) := by
      have hh := H i st
      rw [hfs] at hh
      exact hh
    subst hr1
    simp only [retryAux, hfs]
    by_cases hrem : 0 < fuel
    · rw [if_pos ⟨rfl, by omega⟩]
      obtain ⟨ha, hs, hr⟩ :=
        ih (i + 1) { st1 with pool := (getNextProxy st1.pool).2 } (by omega)
      refine ⟨by rw [ha], ?_, by rw [hr, if_neg (by omega), if_neg (by omega)]⟩
      rw [hs]
      have hf : fuel = (fuel - 1) + 1 := by omega
      rw [show fuel + 1 - 1 = (fuel - 1) + 1 by omega, hf]
      rw [List.range_succ_eq_map]
      simp only [List.map_cons, List.map_map, Nat.add_zero]
      refine congrArg (backoffDelay d i tp :: ·) ?_
      refine List.map_congr_left ?_
      intro k _
      simp only [Function.comp]
      rw [show i + Nat.succ k = i + 1 + k by omega]
    · have hf0 : fuel = 0 := by omega
      subst hf0
      rw [if_neg (by omega)]
      simp [retryAux]

/-- C3: when every attempt fails with HTTP 429, the number of attempts made
by `retryWithBackoff` is exactly `max(maxRetries, proxyCount)` when some
proxy is configured and `maxRetries` otherwise; and with 5 proxies and
`maxRetries = 3` all five attempts happen with every backoff sleep equal to
the base delay (the exponent `⌊i/5⌋` is 0 for `i = 0..4`). -/
theorem C3_effective_attempts {α : Type}
    (fn : Nat → BotState → Except UpstreamError α × BotState)
    (maxRetries initialDelay : Nat) (st : BotState)
    (H : ∀ i s, (fn i s).1 = Except.error (UpstreamError.http 429)) :
    (retryWithBackoff fn maxRetries initialDelay st).attempts =
      (if getProxyCount st.pool > 0
       then max maxRetries (getProxyCount st.pool)
       else maxRetries) ∧
    (getProxyCount st.pool = 5 → maxRetries = 3 →
      (retryWithBackoff fn maxRetries initialDelay st).sleeps =
        List.replicate 4 (JSNum.num initialDelay)) := by
  simp only [retryWithBackoff]
  obtain ⟨ha, hs, _⟩ :=
    retryAux_rate_limited_trace fn initialDelay (getProxyCount st.pool)
      (if getProxyCount st.pool > 0
       then max maxRetries (getProxyCount st.pool) else maxRetries)
      H
      (if getProxyCount st.pool > 0
       then max maxRetries (getProxyCount st.pool) else maxRetries)
      0 st (by omega)
  refine ⟨ha, ?_⟩
  intro h5 h3
  rw [hs, h5, h3]
  norm_num [backoffDelay, jsFloorDiv, List.range_succ]
  rfl

/-- C3 witness instantiation: five proxies, `maxRetries = 3`, an operation
that always fails with 429 → 5 attempts, all four inter-attempt sleeps
equal to the base delay. -/
theorem C3_effective_attempts_witness :
    (retryWithBackoff alwaysRateLimited 3 1000 stFive).attempts = 5 ∧
    (retryWithBackoff alwaysRateLimited 3 1000 stFive).sleeps =
      List.replicate 4 (JSNum.num 1000) := by
  obtain ⟨ha, hs⟩ :=
    C3_effective_attempts alwaysRateLimited 3 1000 stFive (fun _ _ => rfl)
  exact ⟨by simpa using ha, hs rfl rfl⟩

/-- C4: if an attempt at any index `i` fails with an error that is not
classified as a 429 rate limit (another HTTP status or a transport
failure), the loop rethrows that error at once: one attempt happens, no
backoff sleep, no proxy consumed, and the same error is the result —
regardless of how much budget (`fuel`, `actualMaxRetries`) remains. -/
theorem C4_non_429_propagates {α : Type}
    (fn : Nat → BotState → Except UpstreamError α × BotState)
    (d tp amr fuel i : Nat) (st st1 : BotState) (e : UpstreamError)
    (hfn : fn i st = (Except.error e, st1))
    (hnr : isRateLimit e = false) :
    retryAux fn d tp amr (fuel + 1) i st =
      ⟨some (Except.error e), 1, [], [], st1⟩ := by
  have hcond : ¬ (isRateLimit e = true ∧ i < amr - 1) := by
    intro hc
    rw [hnr] at hc
    exact absurd hc.1 (by decide)
  simp only [retryAux, hfn]
  rw [if_neg hcond]

/-- C4 witness instantiation: an HTTP 500 failure on the first attempt with
a budget of 7 attempts remaining propagates after exactly one attempt. -/
theorem C4_non_429_propagates_witness :
    retryAux alwaysServerError 1000 0 7 7 0 stC2 =
      ⟨some (Except.error (UpstreamError.http 500)), 1, [], [], stC2⟩ := by
  exact C4_non_429_propagates alwaysServerError 1000 0 7 6 0 stC2 stC2
    (UpstreamError.http 500) rfl rfl
